import Mathlib

/-!
Verification of the movie-search aggregation service.

The development shallowly embeds the Python service (`app/services/movie_service.py`,
`app/services/external_apis/omdb_client.py`, `app/services/external_apis/tmdb_client.py`,
`app/utils/cache.py`, `app/models/movie.py`, `app/core/exceptions.py`) in Lean.
Pure Python functions become Lean functions; the HTTP layer is passed in as an
explicit upstream outcome; the TTL cache is an association list from keys to
values whose entries model the unexpired, unevicted entries of the store.
Strings use Lean `String`; `str.lower`/`str.strip` are modelled on the ASCII
fragment actually produced and consumed by the service.
-/

namespace MovieSearch

/-! ### Python string primitives -/

/-- Python `str.lower()` on the ASCII fragment (`Char.toLower` lowers `A`-`Z`). -/
def pyLower (s : String) : String := String.mk (s.toList.map Char.toLower)

/-- Whitespace trim on both ends of a character list. -/
def trimChars (l : List Char) : List Char :=
  ((l.dropWhile Char.isWhitespace).reverse.dropWhile Char.isWhitespace).reverse

/-- Python `str.strip()` with no argument: trim whitespace on both ends. -/
def pyStrip (s : String) : String := String.mk (trimChars s.toList)

/-- Python `str.split(',')` on the character level: split at every comma,
keeping empty pieces (`"".split(',') == [""]`). -/
def splitCommaChars : List Char → List (List Char)
  | [] => [[]]
  | c :: rest =>
    match splitCommaChars rest with
    | [] => [[]]
    | h :: t => if c = ',' then [] :: h :: t else (c :: h) :: t

/-- Python `s.split(',')`. -/
def pySplitComma (s : String) : List String := (splitCommaChars s.toList).map String.mk

/-- `listInfix n h` decides whether `n` occurs contiguously inside `h`. -/
def listInfix (n : List Char) : List Char → Bool
  | [] => n.isEmpty
  | c :: t => n.isPrefixOf (c :: t) || listInfix n t

/-- Python `needle in hay` on strings: contiguous-substring containment. -/
def pySubstr (needle hay : String) : Bool := listInfix needle.toList hay.toList

/-- Python truthiness of an `Optional[str]`: `None` and `""` are falsy. -/
def truthyStr : Option String → Bool
  | none => false
  | some s => s ≠ ""

/-- Longest digit prefix of a character list, with the rest. -/
def takeDigits : List Char → List Char × List Char
  | [] => ([], [])
  | c :: cs =>
    if c.isDigit then
      let (d, r) := takeDigits cs
      (c :: d, r)
    else ([], c :: cs)

/-- Numeric value of a list of decimal digits. -/
def digitsVal (l : List Char) : Nat := l.foldl (fun a c => 10 * a + (c.toNat - 48)) 0

/-- Python `int(s)` for a decimal string: optional surrounding whitespace,
optional sign, then a nonempty digit run; everything else raises `ValueError`,
modelled as `none`. -/
def pyInt (s : String) : Option Int :=
  let core : List Char → Option Int := fun l =>
    if l ≠ [] ∧ l.all Char.isDigit then some (digitsVal l : Int) else none
  match trimChars s.toList with
  | '+' :: r => core r
  | '-' :: r => (core r).map Neg.neg
  | r => core r

/-- Python `float(s)` for a finite decimal literal: optional surrounding
whitespace, optional sign, a mantissa with at least one digit (`12`, `12.`,
`.5`, `1.25`), and an optional exponent (`e7`, `E-2`); the exact value is kept
as a rational. Other strings raise `ValueError`, modelled as `none`. -/
def pyFloat (s : String) : Option ℚ :=
  let l := trimChars s.toList
  let sgnl : ℚ × List Char :=
    match l with
    | '+' :: r => (1, r)
    | '-' :: r => (-1, r)
    | _ => (1, l)
  let (ip, l₁) := takeDigits sgnl.2
  let fpl : List Char × List Char :=
    match l₁ with
    | '.' :: r => takeDigits r
    | _ => ([], l₁)
  if ip = [] ∧ fpl.1 = [] then none
  else
    let mant : ℚ :=
      sgnl.1 * ((digitsVal ip : ℚ) + (digitsVal fpl.1 : ℚ) / (10 : ℚ) ^ fpl.1.length)
    match fpl.2 with
    | [] => some mant
    | 'e' :: r =>
      let esgnl : Int × List Char :=
        match r with
        | '+' :: r₂ => (1, r₂)
        | '-' :: r₂ => (-1, r₂)
        | _ => (1, r)
      if esgnl.2 ≠ [] ∧ esgnl.2.all Char.isDigit then
        some (mant * (10 : ℚ) ^ (esgnl.1 * (digitsVal esgnl.2 : Int)))
      else none
    | 'E' :: r =>
      let esgnl : Int × List Char :=
        match r with
        | '+' :: r₂ => (1, r₂)
        | '-' :: r₂ => (-1, r₂)
        | _ => (1, r)
      if esgnl.2 ≠ [] ∧ esgnl.2.all Char.isDigit then
        some (mant * (10 : ℚ) ^ (esgnl.1 * (digitsVal esgnl.2 : Int)))
      else none
    | _ => none

/-! ### Data model (`app/models/movie.py`, `app/core/exceptions.py`) -/

/-- `MovieType(str, Enum)` with values `movie`, `series`, `episode`. -/
inductive MovieType where
  | movie
  | series
  | episode
deriving DecidableEq, Repr

/-- String value of a `MovieType` member. -/
def MovieType.val : MovieType → String
  | .movie => "movie"
  | .series => "series"
  | .episode => "episode"

/-- The `Movie` pydantic model: `title` is required, every other field optional. -/
structure Movie where
  title : String
  year : Option String := none
  imdb_id : Option String := none
  type : Option MovieType := none
  poster : Option String := none
  plot : Option String := none
  director : Option String := none
  actors : Option String := none
  genre : Option String := none
  imdb_rating : Option String := none
  runtime : Option String := none
  released : Option String := none
deriving DecidableEq, Repr

/-- The `MovieSearchParams` pydantic model; pydantic enforces `page ≥ 1` and
`1 ≤ limit ≤ 100`, stated as hypotheses where relevant. -/
structure MovieSearchParams where
  title : Option String := none
  actors : Option String := none
  type : Option MovieType := none
  genre : Option String := none
  year : Option String := none
  page : Nat := 1
  limit : Nat := 10
deriving DecidableEq, Repr

/-- The three `HTTPException` subclasses of `app/core/exceptions.py`. -/
inductive PyErr where
  | validation (msg : String)
  | externalAPI (msg : String)
  | notFound (msg : String)
deriving DecidableEq, Repr

/-! ### MD5 (`hashlib.md5`) over byte lists, used by `CacheManager._generate_key` -/

/-- Reduce modulo `2^32`. -/
def m32 (n : Nat) : Nat := n % 4294967296

/-- Bitwise complement on 32 bits, for `x < 2^32`. -/
def md5Not (x : Nat) : Nat := 4294967295 - x

/-- 32-bit left rotation, for `x < 2^32` and `s < 32`. -/
def rotl (x s : Nat) : Nat := m32 (x <<< s) ||| (x >>> (32 - s))

/-- The 64 MD5 sine-derived constants `K[i]`. -/
def md5K : List Nat :=
  [0xd76aa478, 0xe8c7b756, 0x242070db, 0xc1bdceee,
   0xf57c0faf, 0x4787c62a, 0xa8304613, 0xfd469501,
   0x698098d8, 0x8b44f7af, 0xffff5bb1, 0x895cd7be,
   0x6b901122, 0xfd987193, 0xa679438e, 0x49b40821,
   0xf61e2562, 0xc040b340, 0x265e5a51, 0xe9b6c7aa,
   0xd62f105d, 0x02441453, 0xd8a1e681, 0xe7d3fbc8,
   0x21e1cde6, 0xc33707d6, 0xf4d50d87, 0x455a14ed,
   0xa9e3e905, 0xfcefa3f8, 0x676f02d9, 0x8d2a4c8a,
   0xfffa3942, 0x8771f681, 0x6d9d6122, 0xfde5380c,
   0xa4beea44, 0x4bdecfa9, 0xf6bb4b60, 0xbebfbc70,
   0x289b7ec6, 0xeaa127fa, 0xd4ef3085, 0x04881d05,
   0xd9d4d039, 0xe6db99e5, 0x1fa27cf8, 0xc4ac5665,
   0xf4292244, 0x432aff97, 0xab9423a7, 0xfc93a039,
   0x655b59c3, 0x8f0ccc92, 0xffeff47d, 0x85845dd1,
   0x6fa87e4f, 0xfe2ce6e0, 0xa3014314, 0x4e0811a1,
   0xf7537e82, 0xbd3af235, 0x2ad7d2bb, 0xeb86d391]

/-- The per-round left-rotation amounts `s[i]`. -/
def md5S : List Nat :=
  [7, 12, 17, 22, 7, 12, 17, 22, 7, 12, 17, 22, 7, 12, 17, 22,
   5, 9, 14, 20, 5, 9, 14, 20, 5, 9, 14, 20, 5, 9, 14, 20,
   4, 11, 16, 23, 4, 11, 16, 23, 4, 11, 16, 23, 4, 11, 16, 23,
   6, 10, 15, 21, 6, 10, 15, 21, 6, 10, 15, 21, 6, 10, 15, 21]

/-- Little-endian 32-bit word from up to four bytes. -/
def le32 (bs : List Nat) : Nat :=
  match bs with
  | [a, b, c, d] => a + 256 * (b + 256 * (c + 256 * d))
  | _ => 0

/-- The four little-endian bytes of a 32-bit word. -/
def le32bytes (w : Nat) : List Nat :=
  [w % 256, (w >>> 8) % 256, (w >>> 16) % 256, (w >>> 24) % 256]

/-- MD5 padding: append `0x80`, zero bytes to 56 mod 64, then the 64-bit
little-endian bit length. -/
def md5Pad (msg : List Nat) : List Nat :=
  let bitLen := 8 * msg.length
  let zeros := (56 + 64 - (msg.length + 1) % 64) % 64
  msg ++ [128] ++ List.replicate zeros 0 ++
    ((List.range 8).map fun i => (bitLen >>> (8 * i)) % 256)

/-- Split a list into chunks of `64` elements (structural recursion on a fuel
bound of one step per element, which is ample: each step consumes 64). -/
def chunks64Fuel : Nat → List Nat → List (List Nat)
  | 0, _ => []
  | fuel + 1, l => if l.isEmpty then [] else l.take 64 :: chunks64Fuel fuel (l.drop 64)

/-- Split a list into chunks of `64` elements. -/
def chunks64 (l : List Nat) : List (List Nat) := chunks64Fuel l.length l

/-- One MD5 compression round over a 64-byte chunk. -/
def md5ProcessChunk (h : Nat × Nat × Nat × Nat) (chunk : List Nat) : Nat × Nat × Nat × Nat :=
  let M : Nat → Nat := fun g => le32 ((chunk.drop (4 * g)).take 4)
  let step : Nat × Nat × Nat × Nat → Nat → Nat × Nat × Nat × Nat := fun st i =>
    let (A, B, C, D) := st
    let Fg : Nat × Nat :=
      if i < 16 then ((B &&& C) ||| (md5Not B &&& D), i)
      else if i < 32 then ((D &&& B) ||| (md5Not D &&& C), (5 * i + 1) % 16)
      else if i < 48 then (B ^^^ C ^^^ D, (3 * i + 5) % 16)
      else (C ^^^ (B ||| md5Not D), (7 * i) % 16)
    let Fv := m32 (Fg.1 + A + md5K.getD i 0 + M Fg.2)
    (D, m32 (B + rotl Fv (md5S.getD i 0)), B, C)
  let r := (List.range 64).foldl step h
  (m32 (h.1 + r.1), m32 (h.2.1 + r.2.1), m32 (h.2.2.1 + r.2.2.1), m32 (h.2.2.2 + r.2.2.2))

/-- Lowercase hexadecimal digit. -/
def hexDigit (n : Nat) : Char := "0123456789abcdef".toList.getD n '0'

/-- Lowercase hexadecimal MD5 digest of a byte list
(`hashlib.md5(bytes).hexdigest()`). -/
def md5Hex (msgBytes : List Nat) : String :=
  let final := (chunks64 (md5Pad msgBytes)).foldl md5ProcessChunk
    (0x67452301, 0xefcdab89, 0x98badcfe, 0x10325476)
  let bytes := [final.1, final.2.1, final.2.2.1, final.2.2.2].map le32bytes
  String.mk ((bytes.flatten.map fun b => [hexDigit (b / 16), hexDigit (b % 16)]).flatten)

/-- UTF-8 bytes of an ASCII string (`str.encode()`); the serializer below emits
only ASCII (`json.dumps` defaults to `ensure_ascii=True`). -/
def strBytes (s : String) : List Nat := s.toList.map Char.toNat

/-! ### Cache key material (`CacheManager._generate_key`, `app/utils/cache.py`)

`_generate_key(*args, **kwargs)` serializes `{'args': args, 'kwargs': kwargs}`
with `json.dumps(..., sort_keys=True)` and hashes the UTF-8 bytes with MD5.
Every value the repository ever passes for an arg or kwarg is a scalar: a
string, `None`, an `int`, or a `MovieType` member (a `str` subclass that
serializes as its value), so the JSON leaves are modelled by `JScalar`. -/

/-- A scalar JSON value appearing in cache-key material. -/
inductive JScalar where
  | null
  | s (v : String)
  | i (n : Int)
deriving DecidableEq, Repr

/-- JSON string escaping restricted to strings without `"`, `\`, control or
non-ASCII characters (every string the repository feeds the key serializer);
such strings escape to themselves. -/
def jsonEscape (v : String) : String := v

/-- `json.dumps` rendering of a scalar. -/
def dumpScalar : JScalar → String
  | .null => "null"
  | .s v => "\"" ++ jsonEscape v ++ "\""
  | .i n => toString n

/-- One `"name": value` member of a JSON object. -/
def dumpField (f : String × JScalar) : String :=
  "\"" ++ jsonEscape f.1 ++ "\": " ++ dumpScalar f.2

/-- Lexicographic-by-code-point `≤` on character lists: the order Python uses
to compare the member names under `sort_keys=True`. -/
def charListLe : List Char → List Char → Bool
  | [], _ => true
  | _ :: _, [] => false
  | a :: as, b :: bs => if a = b then charListLe as bs else decide (a < b)

/-- Name order on object members. -/
def nameLe (f g : String × JScalar) : Bool := charListLe f.1.toList g.1.toList

/-- Keyword arguments in canonical (name-sorted) order, as `sort_keys=True`
sorts them: lexicographically by code point. -/
def sortFields (fs : List (String × JScalar)) : List (String × JScalar) :=
  List.insertionSort (fun f g => nameLe f g = true) fs

/-- `json.dumps({'args': args, 'kwargs': kwargs}, sort_keys=True)` with the
default separators; `"args" < "kwargs"`, so the outer object is already in
sorted order. -/
def dumpKeyData (args : List JScalar) (kwargs : List (String × JScalar)) : String :=
  "\x7b\"args\": [" ++ String.intercalate ", " (args.map dumpScalar) ++
    "], \"kwargs\": \x7b" ++
    String.intercalate ", " ((sortFields kwargs).map dumpField) ++ "\x7d\x7d"

/-- `CacheManager._generate_key` (= `generate_key`): MD5 hex digest of the
serialized key material. -/
def generateKey (args : List JScalar) (kwargs : List (String × JScalar)) : String :=
  md5Hex (strBytes (dumpKeyData args kwargs))

/-! ### The cache store (`CacheManager` over `cachetools.TTLCache`)

An association list from keys to values; a present entry models an unexpired,
unevicted `TTLCache` entry. The two value shapes the repository stores are
movie lists (search results) and single movies (details). -/

/-- A value held in the cache store. -/
inductive CacheVal where
  | movies (ms : List Movie)
  | movie (m : Movie)
deriving DecidableEq, Repr

/-- Python truthiness of a cached value: an empty `list` is falsy; a pydantic
`Movie` instance is always truthy. -/
def CacheVal.truthy : CacheVal → Bool
  | .movies ms => !ms.isEmpty
  | .movie _ => true

/-- The cache store state. -/
def Cache := List (String × CacheVal)

instance : DecidableEq Cache := inferInstanceAs (DecidableEq (List (String × CacheVal)))

/-- `CacheManager.get`: `None` when the key has no unexpired entry. -/
def Cache.get (c : Cache) (k : String) : Option CacheVal :=
  match c with
  | [] => none
  | (k', v) :: rest => if k' = k then some v else Cache.get rest k

/-- `CacheManager.set`: assign the key, overwriting an existing entry in place. -/
def Cache.set (c : Cache) (k : String) (v : CacheVal) : Cache :=
  match c with
  | [] => [(k, v)]
  | (k', v') :: rest => if k' = k then (k', v) :: rest else (k', v') :: Cache.set rest k v

/-! ### `MovieService` (`app/services/movie_service.py`) -/

/-- The deduplication key of `_merge_movie_results`:
`(movie.title.lower().strip(), movie.year)`. -/
def movieKey (m : Movie) : String × Option String := (pyStrip (pyLower m.title), m.year)

/-- Python dict assignment `d[k] = v`: overwrite in place, else append. -/
def dictAssign (d : List ((String × Option String) × Movie))
    (k : String × Option String) (v : Movie) : List ((String × Option String) × Movie) :=
  match d with
  | [] => [(k, v)]
  | (k', v') :: rest => if k' = k then (k', v) :: rest else (k', v') :: dictAssign rest k v

/-- Python dict lookup used for `key not in movie_map`. -/
def dictFind (d : List ((String × Option String) × Movie))
    (k : String × Option String) : Option Movie :=
  match d with
  | [] => none
  | (k', v) :: rest => if k' = k then some v else dictFind rest k

/-- `MovieService._merge_movie_results`: insert OMDB movies first (assignment),
then TMDB movies only under keys not already present; output the dict's values
in insertion order. -/
def mergeMovieResults (omdb_movies tmdb_movies : List Movie) : List Movie :=
  let m1 := omdb_movies.foldl (fun d mv => dictAssign d (movieKey mv) mv) []
  let m2 := tmdb_movies.foldl
    (fun d mv => if (dictFind d (movieKey mv)).isSome then d else dictAssign d (movieKey mv) mv) m1
  m2.map Prod.snd

/-- The actors clause of `_apply_additional_filters` (and of the clients'
`_matches_filters`): when both the query's and the movie's actors are truthy,
the lowered-stripped query must be a substring of some comma-split,
stripped-lowered token. -/
def actorClause (params : MovieSearchParams) (m : Movie) : Bool :=
  if truthyStr params.actors && truthyStr m.actors then
    let actors_list := (pySplitComma (m.actors.getD "")).map fun a => pyLower (pyStrip a)
    let search_actor := pyStrip (pyLower (params.actors.getD ""))
    actors_list.any fun a => pySubstr search_actor a
  else true

/-- The genre clause of `_apply_additional_filters` (and of the clients'
`_matches_filters`), token semantics as for actors. -/
def genreClause (params : MovieSearchParams) (m : Movie) : Bool :=
  if truthyStr params.genre && truthyStr m.genre then
    let genres_list := (pySplitComma (m.genre.getD "")).map fun g => pyLower (pyStrip g)
    let search_genre := pyStrip (pyLower (params.genre.getD ""))
    genres_list.any fun g => pySubstr search_genre g
  else true

/-- The type clause of `_apply_additional_filters`:
`if params.type and movie.type != params.type: continue`. -/
def typeClause (params : MovieSearchParams) (m : Movie) : Bool :=
  match params.type with
  | none => true
  | some t => m.type = some t

/-- The year clause of `_apply_additional_filters`:
`if params.year and movie.year != params.year: continue`. -/
def yearClause (params : MovieSearchParams) (m : Movie) : Bool :=
  if truthyStr params.year then m.year = params.year else true

/-- Whether one iteration of the `_apply_additional_filters` loop keeps the
movie (no clause hits `continue`). -/
def keepMovie (params : MovieSearchParams) (m : Movie) : Bool :=
  actorClause params m && genreClause params m && typeClause params m && yearClause params m

/-- `MovieService._apply_additional_filters`. -/
def applyAdditionalFilters (movies : List Movie) (params : MovieSearchParams) : List Movie :=
  movies.filter (keepMovie params)

/-- `OMDBClient._matches_filters` (identical code in `TMDBClient`): the actors
and genre clauses only. -/
def matchesFilters (m : Movie) (params : MovieSearchParams) : Bool :=
  actorClause params m && genreClause params m

/-- The title-relevance component of the `_sort_movies` key: the scoring block
runs only when both the query title and the movie title are truthy. -/
def titleScore (params : MovieSearchParams) (m : Movie) : Nat :=
  if truthyStr params.title && m.title ≠ "" then
    if pyLower (params.title.getD "") = pyLower m.title then 0
    else if pySubstr (pyLower (params.title.getD "")) (pyLower m.title) then 1
    else 2
  else 0

/-- The rating component of the `_sort_movies` key: `-float(imdb_rating)` when
truthy and parseable, else `0`. -/
def ratingScore (m : Movie) : ℚ :=
  if truthyStr m.imdb_rating then
    match pyFloat (m.imdb_rating.getD "") with
    | some q => -q
    | none => 0
  else 0

/-- The year component of the `_sort_movies` key: `-int(year)` when truthy and
parseable, else `0`. -/
def yearScore (m : Movie) : Int :=
  if truthyStr m.year then
    match pyInt (m.year.getD "") with
    | some n => -n
    | none => 0
  else 0

/-- The composite `sort_key` of `_sort_movies`. -/
def sortKey (params : MovieSearchParams) (m : Movie) : Nat × ℚ × Int :=
  (titleScore params m, ratingScore m, yearScore m)

/-- Python tuple `≤` on the composite key: lexicographic. -/
def pyTupleLe (x y : Nat × ℚ × Int) : Bool :=
  decide (x.1 < y.1) ||
    (decide (x.1 = y.1) &&
      (decide (x.2.1 < y.2.1) ||
        (decide (x.2.1 = y.2.1) && decide (x.2.2 ≤ y.2.2))))

/-- `MovieService._sort_movies`: Python's `sorted` is a stable ascending sort
by `sort_key`, embedded as the (stable) `List.mergeSort`. -/
def sortMovies (movies : List Movie) (params : MovieSearchParams) : List Movie :=
  movies.mergeSort fun a b => pyTupleLe (sortKey params a) (sortKey params b)

/-- `MovieService._validate_search_params`: `none` when validation passes,
`some e` for the raised `ValidationError`. The `ValidationError` raised inside
the `try` is not caught by `except ValueError` (it subclasses `HTTPException`). -/
def validateSearchParams (params : MovieSearchParams) : Option PyErr :=
  if !(truthyStr params.title || truthyStr params.actors || params.type.isSome ||
      truthyStr params.genre || truthyStr params.year) then
    some (.validation "At least one search parameter is required")
  else if truthyStr params.year then
    match pyInt (params.year.getD "") with
    | some n =>
      if n < 1900 ∨ n > 2025 then some (.validation "Year must be between 1900 and 2025")
      else none
    | none => some (.validation "Year must be a valid integer")
  else none

/-- The paginated search response model (`SearchResponse`). -/
structure SearchResponse where
  movies : List Movie
  total_results : Nat
  page : Nat
  total_pages : Nat
deriving DecidableEq, Repr

/-- Lines 32-55 of `MovieService.search_movies`: merge, filter, sort, paginate
the two providers' result lists. `sorted[start:end]` with `0 ≤ start ≤ end`
is `take (end - start) ∘ drop start`; `math.ceil(total/limit)` on naturals is
`(total + limit - 1) / limit`. -/
def searchPipeline (params : MovieSearchParams) (omdb_movies tmdb_movies : List Movie) :
    SearchResponse :=
  let merged := mergeMovieResults omdb_movies tmdb_movies
  let filtered := applyAdditionalFilters merged params
  let sorted_movies := sortMovies filtered params
  let total_results := sorted_movies.length
  let start_index := (params.page - 1) * params.limit
  let paginated := (sorted_movies.drop start_index).take params.limit
  let total_pages := if total_results > 0 then (total_results + params.limit - 1) / params.limit else 0
  { movies := paginated, total_results := total_results,
    page := params.page, total_pages := total_pages }

/-- `MovieService.search_movies`, with each provider's `search_movies` outcome
passed in explicitly: validation first; an OMDB failure propagates; a TMDB
failure (any exception) is caught and leaves `tmdb_movies = []`; `tmdbRes =
none` models no configured TMDB client. -/
def serviceSearchMovies (params : MovieSearchParams)
    (omdbRes : Except PyErr (List Movie))
    (tmdbRes : Option (Except PyErr (List Movie))) : Except PyErr SearchResponse :=
  match validateSearchParams params with
  | some e => .error e
  | none =>
    match omdbRes with
    | .error e => .error e
    | .ok omdb_movies =>
      let tmdb_movies :=
        match tmdbRes with
        | none => []
        | some (.error _) => []
        | some (.ok ms) => ms
      .ok (searchPipeline params omdb_movies tmdb_movies)

/-! ### `OMDBClient` (`app/services/external_apis/omdb_client.py`)

The HTTP layer is passed in as an explicit upstream outcome. For
`search_movies` the outcome covers lines 56-89: `ok rows` carries, per row of
the upstream `Search` array, the movie resolved by the detail lookup
(`none` for a row that was skipped because its detail fetch failed);
`fail msg` is a response with `Response == "False"` and `Error == msg`;
`raiseExn msg` is an exception from the HTTP call. Detail-level cache writes
made inside the row loop use the disjoint `omdb_details` namespace and are not
modelled. The returned `Nat` counts upstream HTTP fetch rounds (0 on a cache
hit, 1 otherwise). -/

instance : Inhabited Movie := ⟨{ title := "" }⟩

/-- A cached search value as the movie list the client returns; search keys
only ever hold `.movies`, the `.movie` branch is dead code. -/
def CacheVal.asMovies : CacheVal → List Movie
  | .movies ms => ms
  | .movie m => [m]

/-- A cached details value as the movie the client returns; details keys only
ever hold `.movie`, the `.movies` branch is dead code. -/
def CacheVal.asMovie : CacheVal → Movie
  | .movie m => m
  | .movies ms => ms.getD 0 default

/-- JSON scalar for an `Optional[str]` argument. -/
def joptStr : Option String → JScalar
  | none => .null
  | some s => .s s

/-- JSON scalar for an `Optional[MovieType]` argument (a `str` subclass
serializes as its value). -/
def joptType : Option MovieType → JScalar
  | none => .null
  | some t => .s t.val

/-- The OMDB search cache key: namespace `omdb_search` plus the five filter
fields, excluding `page` and `limit`. -/
def omdbSearchKey (params : MovieSearchParams) : String :=
  generateKey [.s "omdb_search"]
    [("title", joptStr params.title), ("actors", joptStr params.actors),
     ("genre", joptStr params.genre), ("type", joptType params.type),
     ("year", joptStr params.year)]

/-- The OMDB details cache key: positional args `("omdb_details", movie_id)`. -/
def omdbDetailsKey (movieId : String) : String :=
  generateKey [.s "omdb_details", .s movieId] []

/-- Upstream outcome of the OMDB search HTTP round. -/
inductive OmdbSearchHttp where
  | ok (rows : List (Option Movie))
  | fail (errorMsg : String)
  | raiseExn (msg : String)
deriving DecidableEq, Repr

/-- `OMDBClient.search_movies`. -/
def omdbSearchMovies (apiKey : Option String) (cache : Cache)
    (params : MovieSearchParams) (upstream : OmdbSearchHttp) :
    Except PyErr (List Movie × Cache × Nat) :=
  if !truthyStr apiKey then .error (.externalAPI "OMDB API key is not configured")
  else
    let cache_key := omdbSearchKey params
    let fetch : Except PyErr (List Movie × Cache × Nat) :=
      match upstream with
      | .raiseExn msg => .error (.externalAPI ("Failed to search movies: " ++ msg))
      | .fail errorMsg =>
        if pySubstr "not found" (pyLower errorMsg) then .ok ([], cache, 1)
        else if pySubstr "invalid api key" (pyLower errorMsg) then
          .error (.externalAPI "Invalid OMDB API key. Please check your API key configuration.")
        else .error (.externalAPI ("OMDB API error: " ++ errorMsg))
      | .ok rows =>
        let movies := (rows.filterMap id).filter fun m => matchesFilters m params
        .ok (movies, cache.set cache_key (.movies movies), 1)
    match cache.get cache_key with
    | some v => if v.truthy then .ok (v.asMovies, cache, 0) else fetch
    | none => fetch

/-- Upstream outcome of the OMDB details HTTP round; `ok m` is a response with
`Response ≠ "False"` already normalized by `_transform_response`. -/
inductive OmdbDetailsHttp where
  | ok (movie : Movie)
  | fail (errorMsg : String)
  | raiseExn (msg : String)
deriving DecidableEq, Repr

/-- `OMDBClient.get_movie_details`. The `NotFoundError` and `ExternalAPIError`
raised inside the `try` are re-raised unchanged by
`except (ExternalAPIError, NotFoundError): raise`. -/
def omdbGetMovieDetails (apiKey : Option String) (cache : Cache)
    (movieId : String) (upstream : OmdbDetailsHttp) :
    Except PyErr (Movie × Cache × Nat) :=
  if !truthyStr apiKey then .error (.externalAPI "OMDB API key is not configured")
  else
    let cache_key := omdbDetailsKey movieId
    let fetch : Except PyErr (Movie × Cache × Nat) :=
      match upstream with
      | .raiseExn msg => .error (.externalAPI ("Failed to get movie details: " ++ msg))
      | .fail errorMsg =>
        if pySubstr "not found" (pyLower errorMsg) then
          .error (.notFound ("Movie not found: " ++ movieId))
        else if pySubstr "invalid api key" (pyLower errorMsg) then
          .error (.externalAPI "Invalid OMDB API key. Please check your API key configuration.")
        else .error (.externalAPI ("OMDB API error: " ++ errorMsg))
      | .ok movie => .ok (movie, cache.set cache_key (.movie movie), 1)
    match cache.get cache_key with
    | some v => if v.truthy then .ok (v.asMovie, cache, 0) else fetch
    | none => fetch

/-- `MovieService.get_movie_details`: an empty id fails validation before the
provider is consulted; otherwise the call delegates to the primary (OMDB)
provider only. -/
def serviceGetMovieDetails (movieId : String) (apiKey : Option String)
    (cache : Cache) (upstream : OmdbDetailsHttp) : Except PyErr (Movie × Cache × Nat) :=
  if movieId = "" then .error (.validation "Movie ID is required")
  else omdbGetMovieDetails apiKey cache movieId upstream

/-! ### `TMDBClient._transform_search_result` (`tmdb_client.py`, lines 248-284)

The raw TMDB search row is modelled by the fields the transform reads; a field
is `none` when absent or falsy in the JSON (`vote_average` carries its `str()`
rendering). -/

/-- A raw TMDB search-result row. -/
structure TMDBSearchData where
  title : Option String := none
  name : Option String := none
  release_date : Option String := none
  first_air_date : Option String := none
  poster_path : Option String := none
  overview : Option String := none
  vote_average : Option String := none
deriving DecidableEq, Repr

/-- The TMDB poster base URL. -/
def tmdbImageBase : String := "https://image.tmdb.org/t/p/w500"

/-- `TMDBClient._transform_search_result`: basic search rows never populate
`director`, `actors`, `genre` or `runtime`; the `Movie` construction cannot
fail on these inputs, so the `except` branch returning `None` is dead. -/
def tmdbTransformSearchResult (data : TMDBSearchData) (content_type : MovieType) :
    Option Movie :=
  if content_type = .movie then
    some {
      title := data.title.getD "",
      year := if truthyStr data.release_date then some (String.mk ((data.release_date.getD "").toList.take 4)) else none,
      imdb_id := none,
      type := some .movie,
      poster := if truthyStr data.poster_path then some (tmdbImageBase ++ data.poster_path.getD "") else none,
      plot := if truthyStr data.overview then data.overview else none,
      director := none,
      actors := none,
      genre := none,
      imdb_rating := if truthyStr data.vote_average then data.vote_average else none,
      runtime := none,
      released := if truthyStr data.release_date then data.release_date else none }
  else
    some {
      title := data.name.getD "",
      year := if truthyStr data.first_air_date then some (String.mk ((data.first_air_date.getD "").toList.take 4)) else none,
      imdb_id := none,
      type := some .series,
      poster := if truthyStr data.poster_path then some (tmdbImageBase ++ data.poster_path.getD "") else none,
      plot := if truthyStr data.overview then data.overview else none,
      director := none,
      actors := none,
      genre := none,
      imdb_rating := if truthyStr data.vote_average then data.vote_average else none,
      runtime := none,
      released := if truthyStr data.first_air_date then data.first_air_date else none }

/-! ### Specification-side definitions, for comparison with the code -/

/-- The title-relevance score as the specification words it: whenever a title
was queried, `0` for a case-insensitive exact match, `1` for a case-insensitive
substring, `2` otherwise; `0` for every entity when no title was queried.
(The code additionally skips the scoring block when the entity title is empty.) -/
def specTitleScore (params : MovieSearchParams) (m : Movie) : Nat :=
  if truthyStr params.title then
    if pyLower (params.title.getD "") = pyLower m.title then 0
    else if pySubstr (pyLower (params.title.getD "")) (pyLower m.title) then 1
    else 2
  else 0

/-- The composite ranking key as the specification words it. -/
def specSortKey (params : MovieSearchParams) (m : Movie) : Nat × ℚ × Int :=
  (specTitleScore params m, ratingScore m, yearScore m)

/-- The entities the secondary fold actually appends: the input in order,
keeping only the first entity of each key not already `seen`. The merge
theorem shows `_merge_movie_results` equals the primary list followed by
these entries. -/
def tmdbNewEntries : List Movie → List (String × Option String) → List Movie
  | [], _ => []
  | m :: ms, seen =>
    if movieKey m ∈ seen then tmdbNewEntries ms seen
    else m :: tmdbNewEntries ms (seen ++ [movieKey m])

/-! ### Fuel-based evaluators

`List.merge` and `List.mergeSort` are compiled by well-founded recursion, so
closed instances do not reduce; these structurally recursive equivalents (fuel
bounds the recursion depth) let concrete runs of the sort be computed, and are
proved equal to the originals below. -/

/-- `List.merge` with explicit fuel. -/
def mergeFuel (le : α → α → Bool) : Nat → List α → List α → List α
  | 0, xs, ys => xs ++ ys
  | fuel + 1, xs, ys =>
    match xs, ys with
    | [], ys => ys
    | xs, [] => xs
    | x :: xs, y :: ys =>
      if le x y then x :: mergeFuel le fuel xs (y :: ys)
      else y :: mergeFuel le fuel (x :: xs) ys

/-- `List.mergeSort` with explicit fuel. -/
def mergeSortFuel (le : α → α → Bool) : Nat → List α → List α
  | _, [] => []
  | _, [a] => [a]
  | 0, l => l
  | fuel + 1, a :: b :: xs =>
    let split := List.splitInTwo ⟨a :: b :: xs, rfl⟩
    mergeFuel le (split.1.1.length + split.2.1.length)
      (mergeSortFuel le fuel split.1.1) (mergeSortFuel le fuel split.2.1)

/-! ## Theorems -/

/-- With enough fuel, `mergeFuel` is `List.merge`. -/
theorem mergeFuel_eq (le : α → α → Bool) :
    ∀ (fuel : Nat) (xs ys : List α), xs.length + ys.length ≤ fuel →
      mergeFuel le fuel xs ys = List.merge xs ys le := by
  intro fuel
  induction fuel with
  | zero =>
    intro xs ys h
    have hx : xs = [] := by cases xs <;> simp_all
    have hy : ys = [] := by cases ys <;> simp_all
    subst hx; subst hy
    simp [mergeFuel, List.nil_merge]
  | succ n ih =>
    intro xs ys h
    match xs, ys with
    | [], ys => simp [mergeFuel, List.nil_merge]
    | x :: xs, [] => simp [mergeFuel, List.merge_right]
    | x :: xs, y :: ys =>
      rw [List.cons_merge_cons]
      simp only [mergeFuel]
      simp only [List.length_cons] at h
      by_cases hle : le x y
      · rw [if_pos hle, if_pos hle, ih xs (y :: ys) (by simp; omega)]
      · rw [if_neg hle, if_neg hle, ih (x :: xs) ys (by simp; omega)]

/-- With enough fuel, `mergeSortFuel` is `List.mergeSort`. -/
theorem mergeSortFuel_eq (le : α → α → Bool) :
    ∀ (fuel : Nat) (l : List α), l.length ≤ fuel →
      mergeSortFuel le fuel l = List.mergeSort l le := by
  intro fuel
  induction fuel with
  | zero =>
    intro l h
    have : l = [] := by cases l <;> simp_all
    subst this
    simp [mergeSortFuel, List.mergeSort]
  | succ n ih =>
    intro l h
    match l with
    | [] => simp [mergeSortFuel, List.mergeSort]
    | [a] => simp [mergeSortFuel, List.mergeSort]
    | a :: b :: xs =>
      rw [List.mergeSort]
      simp only [mergeSortFuel]
      have h1 : (List.splitInTwo ⟨a :: b :: xs, rfl⟩).1.1.length ≤ n := by
        simp [List.splitInTwo_fst]
        simp only [List.length_cons] at h
        omega
      have h2 : (List.splitInTwo ⟨a :: b :: xs, rfl⟩).2.1.length ≤ n := by
        simp [List.splitInTwo_snd]
        simp only [List.length_cons] at h
        omega
      rw [ih _ h1, ih _ h2]
      rw [mergeFuel_eq]
      simp only [List.length_mergeSort]
      omega

/-- Closed-form evaluator for `_sort_movies`. -/
theorem sortMovies_eval (ms : List Movie) (p : MovieSearchParams) :
    sortMovies ms p =
      mergeSortFuel (fun a b => pyTupleLe (sortKey p a) (sortKey p b)) ms.length ms :=
  (mergeSortFuel_eq _ ms.length ms le_rfl).symm

/-- `total_results` is the length of the filtered merged set (sorting
preserves length). -/
theorem searchPipeline_total_results_eq (p : MovieSearchParams) (omdb tmdb : List Movie) :
    (searchPipeline p omdb tmdb).total_results =
      (applyAdditionalFilters (mergeMovieResults omdb tmdb) p).length := by
  show (sortMovies (applyAdditionalFilters (mergeMovieResults omdb tmdb) p) p).length = _
  simp [sortMovies, List.length_mergeSort]

/-- `total_pages` in terms of the filtered merged set's length. -/
theorem searchPipeline_total_pages_eq (p : MovieSearchParams) (omdb tmdb : List Movie) :
    (searchPipeline p omdb tmdb).total_pages =
      if 0 < (applyAdditionalFilters (mergeMovieResults omdb tmdb) p).length then
        ((applyAdditionalFilters (mergeMovieResults omdb tmdb) p).length + p.limit - 1) / p.limit
      else 0 := by
  show (if (sortMovies (applyAdditionalFilters (mergeMovieResults omdb tmdb) p) p).length > 0
      then ((sortMovies (applyAdditionalFilters (mergeMovieResults omdb tmdb) p) p).length
        + p.limit - 1) / p.limit else 0) = _
  simp [sortMovies, List.length_mergeSort, Nat.pos_iff_ne_zero]

/-- C7: the claim's stated year bound `[1900, 2030]` does not match the code:
`"2030"` lies inside the claimed bound and should pass validation, but
`_validate_search_params` rejects every year above 2025. -/
theorem C7_counterexample :
    validateSearchParams { year := some "2030" } =
      some (.validation "Year must be between 1900 and 2025") := by decide

/-- C7 (amended: the year bound is `[1900, 2025]`, not `[1900, 2030]`):
validation fails exactly when no criterion is given or the year is non-numeric
or out of bounds; a validation failure is returned by `search_movies` before
any provider outcome is consulted; the claim's concrete examples behave as
stated, with the bound's upper end corrected. -/
theorem C7_validation_amended :
    (∀ p : MovieSearchParams,
        validateSearchParams p = none ↔
          (truthyStr p.title || truthyStr p.actors || p.type.isSome ||
              truthyStr p.genre || truthyStr p.year) = true ∧
            (truthyStr p.year = true →
              ∃ n : Int, pyInt (p.year.getD "") = some n ∧ 1900 ≤ n ∧ n ≤ 2025)) ∧
    (∀ p or1 or2 e, validateSearchParams p = some e →
        serviceSearchMovies p or1 or2 = .error e) ∧
    validateSearchParams ({} : MovieSearchParams) ≠ none ∧
    validateSearchParams { year := some "abcd" } ≠ none ∧
    validateSearchParams { year := some "1899" } ≠ none ∧
    validateSearchParams { year := some "2031" } ≠ none ∧
    validateSearchParams { year := some "2026" } ≠ none ∧
    validateSearchParams { year := some "2005" } = none ∧
    validateSearchParams { year := some "2025" } = none := by
  refine ⟨?_, ?_, by decide, by decide, by decide, by decide, by decide, by decide, by decide⟩
  · intro p
    unfold validateSearchParams
    by_cases hc : (truthyStr p.title || truthyStr p.actors || p.type.isSome ||
        truthyStr p.genre || truthyStr p.year) = true
    · simp only [hc, Bool.not_true, if_false, true_and]
      by_cases hy : truthyStr p.year = true
      · simp only [hy, if_true, forall_true_left]
        cases hn : pyInt (p.year.getD "") with
        | none => simp
        | some n =>
          by_cases hr : n < 1900 ∨ n > 2025
          · simp only [hr, if_true]
            constructor
            · intro h; exact absurd h (by simp)
            · rintro ⟨m, hm, h1, h2⟩
              cases hm
              exfalso
              omega
          · simp only [hr, if_false]
            exact ⟨fun _ => ⟨n, rfl, by omega, by omega⟩, fun _ => rfl⟩
      · simp only [Bool.not_eq_true] at hy
        simp [hy]
    · simp only [Bool.not_eq_true] at hc
      simp [hc]
  · intro p or1 or2 e h
    simp [serviceSearchMovies, h]

/-- Witness for `C7_validation_amended` at concrete inputs. -/
theorem C7_validation_witness :
    serviceSearchMovies ({} : MovieSearchParams) (.ok []) none =
        .error (.validation "At least one search parameter is required") ∧
      ∃ n : Int, pyInt ((some "2005").getD "") = some n ∧ 1900 ≤ n ∧ n ≤ 2025 :=
  ⟨C7_validation_amended.2.1 _ _ _ _ (by decide),
   ((C7_validation_amended.1 { year := some "2005" }).mp (by decide)).2 (by decide)⟩

/-- C8: a secondary (TMDB) failure is absorbed — the result is the one
obtained with an empty TMDB contribution, equivalently with no TMDB client at
all, and is a success whenever validation and the primary succeed; a primary
(OMDB) failure propagates unchanged. -/
theorem C8_provider_failure_handling :
    (∀ (p : MovieSearchParams) (omdbRes : Except PyErr (List Movie)) (e : PyErr),
        serviceSearchMovies p omdbRes (some (.error e)) =
          serviceSearchMovies p omdbRes (some (.ok []))) ∧
    (∀ (p : MovieSearchParams) (omdbRes : Except PyErr (List Movie)) (e : PyErr),
        serviceSearchMovies p omdbRes (some (.error e)) =
          serviceSearchMovies p omdbRes none) ∧
    (∀ (p : MovieSearchParams) (tmdbRes : Option (Except PyErr (List Movie))) (e : PyErr),
        validateSearchParams p = none →
        serviceSearchMovies p (.error e) tmdbRes = .error e) ∧
    (∀ (p : MovieSearchParams) (ms : List Movie) (e : PyErr),
        validateSearchParams p = none →
        serviceSearchMovies p (.ok ms) (some (.error e)) =
          .ok (searchPipeline p ms [])) := by
  refine ⟨?_, ?_, ?_, ?_⟩
  · intro p o e
    cases h : validateSearchParams p <;> cases o <;> simp [serviceSearchMovies, h]
  · intro p o e
    cases h : validateSearchParams p <;> cases o <;> simp [serviceSearchMovies, h]
  · intro p t e h
    simp [serviceSearchMovies, h]
  · intro p ms e h
    simp [serviceSearchMovies, h]

/-- Witness for `C8_provider_failure_handling` at concrete inputs. -/
theorem C8_provider_failure_witness :
    serviceSearchMovies { title := some "x" } (.error (.externalAPI "omdb down")) none =
        .error (.externalAPI "omdb down") ∧
      serviceSearchMovies { title := some "x" } (.ok [])
          (some (.error (.externalAPI "tmdb down"))) =
        .ok (searchPipeline { title := some "x" } [] []) :=
  ⟨C8_provider_failure_handling.2.2.1 _ _ _ (by decide),
   C8_provider_failure_handling.2.2.2 _ _ _ (by decide)⟩

/-- C9: `get_movie_details` delegates to the primary provider only: an empty
id fails validation without consulting the provider; an id the provider
reports unknown raises `NotFoundError` (which is distinct from
`ExternalAPIError`); a missing API key or an upstream exception raises
`ExternalAPIError`; any provider error propagates unchanged. -/
theorem C9_details_error_propagation :
    (∀ (apiKey : Option String) (cache : Cache) (up : OmdbDetailsHttp),
        serviceGetMovieDetails "" apiKey cache up =
          .error (.validation "Movie ID is required")) ∧
    (∀ (mid : String) (apiKey : Option String) (cache : Cache) (msg : String),
        mid ≠ "" → truthyStr apiKey = true →
        Cache.get cache (omdbDetailsKey mid) = none →
        pySubstr "not found" (pyLower msg) = true →
        serviceGetMovieDetails mid apiKey cache (.fail msg) =
          .error (.notFound ("Movie not found: " ++ mid))) ∧
    (∀ (mid : String) (cache : Cache) (up : OmdbDetailsHttp), mid ≠ "" →
        serviceGetMovieDetails mid none cache up =
          .error (.externalAPI "OMDB API key is not configured")) ∧
    (∀ (mid : String) (apiKey : Option String) (cache : Cache) (msg : String),
        mid ≠ "" → truthyStr apiKey = true →
        Cache.get cache (omdbDetailsKey mid) = none →
        serviceGetMovieDetails mid apiKey cache (.raiseExn msg) =
          .error (.externalAPI ("Failed to get movie details: " ++ msg))) ∧
    (∀ (mid : String) (apiKey : Option String) (cache : Cache) (up : OmdbDetailsHttp)
        (e : PyErr), mid ≠ "" →
        omdbGetMovieDetails apiKey cache mid up = .error e →
        serviceGetMovieDetails mid apiKey cache up = .error e) ∧
    (∀ a b : String, PyErr.notFound a ≠ PyErr.externalAPI b) := by
  refine ⟨?_, ?_, ?_, ?_, ?_, ?_⟩
  · intro apiKey cache up
    simp [serviceGetMovieDetails]
  · intro mid apiKey cache msg hne hkey hcache hmsg
    simp [serviceGetMovieDetails, hne, omdbGetMovieDetails, hkey, hcache, hmsg]
  · intro mid cache up hne
    simp [serviceGetMovieDetails, hne, omdbGetMovieDetails, truthyStr]
  · intro mid apiKey cache msg hne hkey hcache
    simp [serviceGetMovieDetails, hne, omdbGetMovieDetails, hkey, hcache]
  · intro mid apiKey cache up e hne h
    simp [serviceGetMovieDetails, hne, h]
  · intro a b h
    cases h

/-- Witness for `C9_details_error_propagation` at concrete inputs. -/
theorem C9_details_witness :
    serviceGetMovieDetails "" (some "k") [] (.ok default) =
        .error (.validation "Movie ID is required") ∧
      serviceGetMovieDetails "tt0372784" (some "k") [] (.fail "Movie not found!") =
        .error (.notFound ("Movie not found: " ++ "tt0372784")) :=
  ⟨C9_details_error_propagation.1 _ _ _,
   C9_details_error_propagation.2.1 _ _ _ _ (by decide) (by decide) rfl (by decide)⟩

/-- Unfolding of the Python tuple comparison. -/
theorem pyTupleLe_iff (x y : Nat × ℚ × Int) :
    pyTupleLe x y = true ↔
      x.1 < y.1 ∨ (x.1 = y.1 ∧ (x.2.1 < y.2.1 ∨ (x.2.1 = y.2.1 ∧ x.2.2 ≤ y.2.2))) := by
  simp [pyTupleLe]

/-- The tuple comparison is reflexive. -/
theorem pyTupleLe_refl (x : Nat × ℚ × Int) : pyTupleLe x x = true := by
  simp [pyTupleLe_iff]

/-- The tuple comparison is total. -/
theorem pyTupleLe_total (x y : Nat × ℚ × Int) : pyTupleLe x y || pyTupleLe y x := by
  rw [Bool.or_eq_true, pyTupleLe_iff, pyTupleLe_iff]
  rcases lt_trichotomy x.1 y.1 with h | h | h
  · exact Or.inl (Or.inl h)
  · rcases lt_trichotomy x.2.1 y.2.1 with h2 | h2 | h2
    · exact Or.inl (Or.inr ⟨h, Or.inl h2⟩)
    · rcases le_total x.2.2 y.2.2 with h3 | h3
      · exact Or.inl (Or.inr ⟨h, Or.inr ⟨h2, h3⟩⟩)
      · exact Or.inr (Or.inr ⟨h.symm, Or.inr ⟨h2.symm, h3⟩⟩)
    · exact Or.inr (Or.inr ⟨h.symm, Or.inl h2⟩)
  · exact Or.inr (Or.inl h)

/-- The tuple comparison is transitive. -/
theorem pyTupleLe_trans (x y z : Nat × ℚ × Int) :
    pyTupleLe x y → pyTupleLe y z → pyTupleLe x z := by
  simp only [pyTupleLe_iff]
  intro h1 h2
  rcases h1 with h1 | ⟨e1, h1⟩ <;> rcases h2 with h2 | ⟨e2, h2⟩
  · exact Or.inl (lt_trans h1 h2)
  · exact Or.inl (lt_of_lt_of_eq h1 e2)
  · exact Or.inl (lt_of_eq_of_lt e1 h2)
  · rcases h1 with h1 | ⟨f1, h1⟩ <;> rcases h2 with h2 | ⟨f2, h2⟩
    · exact Or.inr ⟨e1.trans e2, Or.inl (lt_trans h1 h2)⟩
    · exact Or.inr ⟨e1.trans e2, Or.inl (lt_of_lt_of_eq h1 f2)⟩
    · exact Or.inr ⟨e1.trans e2, Or.inl (lt_of_eq_of_lt f1 h2)⟩
    · exact Or.inr ⟨e1.trans e2, Or.inr ⟨f1.trans f2, le_trans h1 h2⟩⟩

/-- C6: an actor (genre) filter against a populated field matches iff the
lowered, trimmed query is a substring of at least one comma-split, trimmed,
lowered token; the claim's concrete example behaves as stated; the clients'
`_matches_filters` applies exactly the same two clauses, and the aggregator
re-applies them together with content-kind equality and exact-year equality. -/
theorem C6_token_filter_semantics :
    (∀ (p : MovieSearchParams) (m : Movie),
        truthyStr p.actors = true → truthyStr m.actors = true →
        (actorClause p m = true ↔
          ∃ a ∈ pySplitComma (m.actors.getD ""),
            pySubstr (pyStrip (pyLower (p.actors.getD ""))) (pyLower (pyStrip a)) = true)) ∧
    (∀ (p : MovieSearchParams) (m : Movie),
        truthyStr p.genre = true → truthyStr m.genre = true →
        (genreClause p m = true ↔
          ∃ g ∈ pySplitComma (m.genre.getD ""),
            pySubstr (pyStrip (pyLower (p.genre.getD ""))) (pyLower (pyStrip g)) = true)) ∧
    actorClause { actors := some "bale" }
        { title := "x", actors := some "Christian Bale, Michael Caine" } = true ∧
    actorClause { actors := some "ne, mich" }
        { title := "x", actors := some "Christian Bale, Michael Caine" } = false ∧
    (∀ (m : Movie) (p : MovieSearchParams),
        matchesFilters m p = (actorClause p m && genreClause p m)) ∧
    (∀ (p : MovieSearchParams) (m : Movie),
        keepMovie p m = (matchesFilters m p && typeClause p m && yearClause p m)) ∧
    (∀ (ms : List Movie) (p : MovieSearchParams),
        applyAdditionalFilters ms p = ms.filter (keepMovie p)) := by
  refine ⟨?_, ?_, by decide, by decide, fun m p => rfl, fun p m => rfl, fun ms p => rfl⟩
  · intro p m h1 h2
    simp [actorClause, h1, h2, List.any_map, List.any_eq_true, Function.comp]
  · intro p m h1 h2
    simp [genreClause, h1, h2, List.any_map, List.any_eq_true, Function.comp]

/-- Witness for `C6_token_filter_semantics` at the claim's concrete example. -/
theorem C6_token_filter_witness :
    ∃ a ∈ pySplitComma ((some "Christian Bale, Michael Caine").getD ""),
      pySubstr (pyStrip (pyLower ((some "bale" : Option String).getD "")))
        (pyLower (pyStrip a)) = true :=
  (C6_token_filter_semantics.1 { actors := some "bale" }
      { title := "x", actors := some "Christian Bale, Michael Caine" }
      (by decide) (by decide)).mp (by decide)

/-- C10: the claim's final consequence fails: under a non-empty actor filter a
merged entity with `actors = None` (and `genre = None`) is still excluded by
the year clause of the same filter when a year was also queried, so such
entities do not always appear in the filtered set. -/
theorem C10_counterexample :
    applyAdditionalFilters [{ title := "m", year := some "1999" }]
      { actors := some "bale", year := some "2021" } = [] := by decide

/-- C10 (amended: the actor and genre clauses never exclude an entity whose
corresponding field is `None` — such entities are excluded only by the type or
year equality clauses, so they always appear in the filtered set when the
query carries no type and no year filter; TMDB basic search results always
carry `actors = None` and `genre = None`). -/
theorem C10_absent_fields_amended :
    (∀ (p : MovieSearchParams) (m : Movie), m.actors = none → actorClause p m = true) ∧
    (∀ (p : MovieSearchParams) (m : Movie), m.genre = none → genreClause p m = true) ∧
    (∀ (data : TMDBSearchData) (t : MovieType) (mv : Movie),
        tmdbTransformSearchResult data t = some mv → mv.actors = none ∧ mv.genre = none) ∧
    (∀ (p : MovieSearchParams) (ms : List Movie) (m : Movie),
        m ∈ ms → m.actors = none → m.genre = none →
        p.type = none → truthyStr p.year = false →
        m ∈ applyAdditionalFilters ms p) := by
  refine ⟨?_, ?_, ?_, ?_⟩
  · intro p m h
    simp [actorClause, h, truthyStr]
  · intro p m h
    simp [genreClause, h, truthyStr]
  · intro data t mv h
    unfold tmdbTransformSearchResult at h
    split at h <;> (cases h; exact ⟨rfl, rfl⟩)
  · intro p ms m hmem hactors hgenre htype hyear
    refine List.mem_filter.mpr ⟨hmem, ?_⟩
    have h1 : actorClause p m = true := by simp [actorClause, hactors, truthyStr]
    have h2 : genreClause p m = true := by simp [genreClause, hgenre, truthyStr]
    have h3 : typeClause p m = true := by simp [typeClause, htype]
    have h4 : yearClause p m = true := by simp [yearClause, hyear]
    simp [keepMovie, h1, h2, h3, h4]

/-- Witness for `C10_absent_fields_amended` at a concrete input. -/
theorem C10_absent_fields_witness :
    ({ title := "m" } : Movie) ∈
      applyAdditionalFilters [{ title := "m" }] { actors := some "bale" } :=
  C10_absent_fields_amended.2.2.2 { actors := some "bale" } _ _
    (by simp) rfl rfl rfl rfl

/-- Natural ceiling division `(a + b - 1) / b` agrees with the rational
ceiling `⌈a / b⌉` (the value `math.ceil(total/limit)` computes). -/
theorem natCeilDiv_eq_ceil (a b : ℕ) (hb : 0 < b) :
    (((a + b - 1) / b : ℕ) : ℤ) = ⌈(a : ℚ) / (b : ℚ)⌉ := by
  have hqr := Nat.div_add_mod (a + b - 1) b
  have hr : (a + b - 1) % b < b := Nat.mod_lt _ hb
  set q := (a + b - 1) / b with hq
  have h1 : a ≤ b * q := by omega
  have h2 : b * q < a + b := by omega
  have hb' : (0 : ℚ) < (b : ℚ) := by exact_mod_cast hb
  have h1' : (a : ℚ) ≤ (b : ℚ) * (q : ℚ) := by exact_mod_cast h1
  have h2' : (b : ℚ) * (q : ℚ) < (a : ℚ) + (b : ℚ) := by exact_mod_cast h2
  rw [eq_comm, Int.ceil_eq_iff]
  refine ⟨?_, ?_⟩
  · rw [lt_div_iff₀ hb']
    push_cast
    linarith
  · rw [div_le_iff₀ hb']
    push_cast
    linarith

/-- `keepMovie` reads only the `actors`, `genre`, `type` and `year` fields of
the query. -/
theorem keepMovie_congr (p q : MovieSearchParams) (m : Movie)
    (hA : p.actors = q.actors) (hG : p.genre = q.genre)
    (hT : p.type = q.type) (hY : p.year = q.year) :
    keepMovie p m = keepMovie q m := by
  unfold keepMovie actorClause genreClause typeClause yearClause
  rw [hA, hG, hT, hY]

/-- `_apply_additional_filters` is unaffected by the pagination fields. -/
theorem applyAdditionalFilters_congr (ms : List Movie) (p q : MovieSearchParams)
    (hA : p.actors = q.actors) (hG : p.genre = q.genre)
    (hT : p.type = q.type) (hY : p.year = q.year) :
    applyAdditionalFilters ms p = applyAdditionalFilters ms q := by
  unfold applyAdditionalFilters
  rw [show keepMovie p = keepMovie q from funext fun m => keepMovie_congr p q m hA hG hT hY]

/-- C3: the final consequence of the claim fails: `total_pages` is not
invariant under a change of `page_size` — over the same 5-result sorted set,
page size 3 reports 2 total pages while page size 5 reports 1, even though
`total_results` agrees. -/
theorem C3_counterexample :
    (searchPipeline { title := some "a", page := 1, limit := 3 }
        [{ title := "a1" }, { title := "a2" }, { title := "a3" },
         { title := "a4" }, { title := "a5" }] []).total_results =
      (searchPipeline { title := some "a", page := 1, limit := 5 }
        [{ title := "a1" }, { title := "a2" }, { title := "a3" },
         { title := "a4" }, { title := "a5" }] []).total_results ∧
    (searchPipeline { title := some "a", page := 1, limit := 3 }
        [{ title := "a1" }, { title := "a2" }, { title := "a3" },
         { title := "a4" }, { title := "a5" }] []).total_pages = 2 ∧
    (searchPipeline { title := some "a", page := 1, limit := 5 }
        [{ title := "a1" }, { title := "a2" }, { title := "a3" },
         { title := "a4" }, { title := "a5" }] []).total_pages = 1 := by
  rw [searchPipeline_total_results_eq, searchPipeline_total_results_eq,
    searchPipeline_total_pages_eq, searchPipeline_total_pages_eq]
  decide

/-- C3 (amended: `total_results` is invariant across calls differing only in
`page`/`page_size`, while `total_pages` — being `ceil(total_results /
page_size)` — is invariant only across calls differing in `page` alone):
search returns the slice `[(page-1)*size : (page-1)*size + size]` of the
sorted set, an empty page (not an error) past the end, `total_results` the
length of the full sorted set, `total_pages` the rational ceiling of
`total_results / page_size` (0 when empty), and at most `page_size` movies. -/
theorem C3_pagination_amended :
    (∀ (p : MovieSearchParams) (omdb tmdb : List Movie),
        (searchPipeline p omdb tmdb).movies =
          ((sortMovies (applyAdditionalFilters (mergeMovieResults omdb tmdb) p) p).drop
              ((p.page - 1) * p.limit)).take p.limit) ∧
    (∀ (p : MovieSearchParams) (omdb tmdb : List Movie),
        (searchPipeline p omdb tmdb).total_results =
          (sortMovies (applyAdditionalFilters (mergeMovieResults omdb tmdb) p) p).length) ∧
    (∀ (p : MovieSearchParams) (omdb tmdb : List Movie), 0 < p.limit →
        ((searchPipeline p omdb tmdb).total_pages : ℤ) =
          if 0 < (searchPipeline p omdb tmdb).total_results then
            ⌈((searchPipeline p omdb tmdb).total_results : ℚ) / (p.limit : ℚ)⌉
          else 0) ∧
    (∀ (p : MovieSearchParams) (omdb tmdb : List Movie),
        (searchPipeline p omdb tmdb).movies.length ≤ p.limit) ∧
    (∀ (p : MovieSearchParams) (omdb tmdb : List Movie),
        (searchPipeline p omdb tmdb).total_results ≤ (p.page - 1) * p.limit →
        (searchPipeline p omdb tmdb).movies = []) ∧
    (∀ (p q : MovieSearchParams) (omdb tmdb : List Movie),
        p.title = q.title → p.actors = q.actors → p.type = q.type →
        p.genre = q.genre → p.year = q.year →
        (searchPipeline p omdb tmdb).total_results =
          (searchPipeline q omdb tmdb).total_results) ∧
    (∀ (p q : MovieSearchParams) (omdb tmdb : List Movie),
        p.title = q.title → p.actors = q.actors → p.type = q.type →
        p.genre = q.genre → p.year = q.year → p.limit = q.limit →
        (searchPipeline p omdb tmdb).total_pages =
          (searchPipeline q omdb tmdb).total_pages) := by
  refine ⟨fun p omdb tmdb => rfl, fun p omdb tmdb => rfl, ?_, ?_, ?_, ?_, ?_⟩
  · intro p omdb tmdb hl
    have hdef : (searchPipeline p omdb tmdb).total_pages =
        if 0 < (searchPipeline p omdb tmdb).total_results then
          ((searchPipeline p omdb tmdb).total_results + p.limit - 1) / p.limit
        else 0 := rfl
    rw [hdef]
    by_cases h : 0 < (searchPipeline p omdb tmdb).total_results
    · simp only [h, if_true]
      exact natCeilDiv_eq_ceil _ _ hl
    · simp [h]
  · intro p omdb tmdb
    have h := List.length_take_le p.limit
      ((sortMovies (applyAdditionalFilters (mergeMovieResults omdb tmdb) p) p).drop
        ((p.page - 1) * p.limit))
    exact h
  · intro p omdb tmdb h
    have h' : (sortMovies (applyAdditionalFilters (mergeMovieResults omdb tmdb) p) p).length ≤
        (p.page - 1) * p.limit := h
    show ((sortMovies (applyAdditionalFilters (mergeMovieResults omdb tmdb) p) p).drop
        ((p.page - 1) * p.limit)).take p.limit = []
    rw [List.drop_eq_nil_of_le h', List.take_nil]
  · intro p q omdb tmdb h1 h2 h3 h4 h5
    have hf := applyAdditionalFilters_congr (mergeMovieResults omdb tmdb) p q h2 h4 h3 h5
    show (sortMovies (applyAdditionalFilters (mergeMovieResults omdb tmdb) p) p).length =
      (sortMovies (applyAdditionalFilters (mergeMovieResults omdb tmdb) q) q).length
    simp only [sortMovies, List.length_mergeSort]
    rw [hf]
  · intro p q omdb tmdb h1 h2 h3 h4 h5 hlim
    have hf := applyAdditionalFilters_congr (mergeMovieResults omdb tmdb) p q h2 h4 h3 h5
    have hT : (sortMovies (applyAdditionalFilters (mergeMovieResults omdb tmdb) p) p).length =
        (sortMovies (applyAdditionalFilters (mergeMovieResults omdb tmdb) q) q).length := by
      simp only [sortMovies, List.length_mergeSort]
      rw [hf]
    show (if (sortMovies (applyAdditionalFilters (mergeMovieResults omdb tmdb) p) p).length > 0
        then ((sortMovies (applyAdditionalFilters (mergeMovieResults omdb tmdb) p) p).length
          + p.limit - 1) / p.limit else 0) =
      (if (sortMovies (applyAdditionalFilters (mergeMovieResults omdb tmdb) q) q).length > 0
        then ((sortMovies (applyAdditionalFilters (mergeMovieResults omdb tmdb) q) q).length
          + q.limit - 1) / q.limit else 0)
    rw [hT, hlim]

/-- Witness for `C3_pagination_amended` at concrete inputs. -/
theorem C3_pagination_witness :
    ((searchPipeline { title := some "a", page := 1, limit := 3 }
        [{ title := "a1" }, { title := "a2" }] []).total_pages : ℤ) =
      (if 0 < (searchPipeline { title := some "a", page := 1, limit := 3 }
          [{ title := "a1" }, { title := "a2" }] []).total_results then
        ⌈((searchPipeline { title := some "a", page := 1, limit := 3 }
          [{ title := "a1" }, { title := "a2" }] []).total_results : ℚ) / ((3 : ℕ) : ℚ)⌉
      else 0) ∧
    (searchPipeline { title := some "a", page := 7, limit := 3 }
        [{ title := "a1" }, { title := "a2" }] []).movies = [] :=
  ⟨C3_pagination_amended.2.2.1 { title := some "a", page := 1, limit := 3 }
      [{ title := "a1" }, { title := "a2" }] [] (by decide),
   C3_pagination_amended.2.2.2.2.1 { title := some "a", page := 7, limit := 3 }
      [{ title := "a1" }, { title := "a2" }] []
      (by simp only [searchPipeline_total_results_eq]; decide)⟩

section RatKernelEval

attribute [local semireducible] Rat.add Rat.mul Rat.inv Rat.sub

/-- C2: the claim's composite key is wrong for entities with an empty title:
the code skips the whole relevance block when the entity title is falsy,
scoring such an entity `0`, while the claim's key scores it `2` (the query
title neither equals nor is a substring of `""`). Sorting `["The Batman"
(rating 8.5), ""]` under query title `"batman"` puts the empty-titled entity
first, whereas the claim's key demands it come last: the output is not sorted
ascending by the claim's key. -/
theorem C2_counterexample :
    sortMovies [{ title := "The Batman", imdb_rating := some "8.5" }, { title := "" }]
        { title := some "batman" } =
      [{ title := "" }, { title := "The Batman", imdb_rating := some "8.5" }] ∧
    specTitleScore { title := some "batman" } { title := "" } = 2 ∧
    titleScore { title := some "batman" } { title := "" } = 0 ∧
    pyTupleLe (specSortKey { title := some "batman" } { title := "" })
      (specSortKey { title := some "batman" }
        { title := "The Batman", imdb_rating := some "8.5" }) = false := by
  refine ⟨?_, by decide, by decide, by decide⟩
  rw [sortMovies_eval]
  decide

/-- C2 (amended: title relevance is additionally `0` whenever the entity's
title is empty — the scoring block runs only when both the query title and
the entity title are non-empty; all other components are as claimed): the
ranking is a stable ascending sort by the composite key (title relevance,
then negated parsed rating with non-numeric/absent as 0, then negated parsed
year with non-numeric/absent as 0); entities equal on all three keys keep
their merge order; the claim's concrete batman example sorts as stated. -/
theorem C2_ranking_amended :
    (∀ (p : MovieSearchParams) (ms : List Movie),
        (sortMovies ms p).Pairwise (fun a b => pyTupleLe (sortKey p a) (sortKey p b) = true)) ∧
    (∀ (p : MovieSearchParams) (ms : List Movie), (sortMovies ms p).Perm ms) ∧
    (∀ (p : MovieSearchParams) (ms : List Movie) (k : Nat × ℚ × Int),
        (sortMovies ms p).filter (fun m => decide (sortKey p m = k)) =
          ms.filter (fun m => decide (sortKey p m = k))) ∧
    (∀ (p : MovieSearchParams) (m : Movie),
        sortKey p m = (titleScore p m, ratingScore m, yearScore m)) ∧
    (∀ (p : MovieSearchParams) (m : Movie), truthyStr p.title = false → titleScore p m = 0) ∧
    (∀ (p : MovieSearchParams) (m : Movie), m.title = "" → titleScore p m = 0) ∧
    (∀ (p : MovieSearchParams) (m : Movie), truthyStr p.title = true → m.title ≠ "" →
        titleScore p m =
          if pyLower (p.title.getD "") = pyLower m.title then 0
          else if pySubstr (pyLower (p.title.getD "")) (pyLower m.title) then 1 else 2) ∧
    (∀ m : Movie, m.imdb_rating = none → ratingScore m = 0) ∧
    (∀ (m : Movie) (s : String), m.imdb_rating = some s → pyFloat s = none →
        ratingScore m = 0) ∧
    (∀ (m : Movie) (s : String) (q : ℚ), m.imdb_rating = some s → s ≠ "" →
        pyFloat s = some q → ratingScore m = -q) ∧
    (∀ m : Movie, m.year = none → yearScore m = 0) ∧
    (∀ (m : Movie) (s : String), m.year = some s → pyInt s = none → yearScore m = 0) ∧
    (∀ (m : Movie) (s : String) (n : Int), m.year = some s → s ≠ "" →
        pyInt s = some n → yearScore m = -n) ∧
    (sortMovies [{ title := "Batman", imdb_rating := some "7.0" },
        { title := "Batman Begins", imdb_rating := some "8.0" },
        { title := "The Batman", imdb_rating := some "8.5" }]
        { title := some "batman" }).map Movie.title =
      ["Batman", "The Batman", "Batman Begins"] := by
  refine ⟨?_, ?_, ?_, fun p m => rfl, ?_, ?_, ?_, ?_, ?_, ?_, ?_, ?_, ?_, ?_⟩
  · intro p ms
    exact List.sorted_mergeSort
      (fun a b c => pyTupleLe_trans (sortKey p a) (sortKey p b) (sortKey p c))
      (fun a b => pyTupleLe_total (sortKey p a) (sortKey p b)) ms
  · intro p ms
    exact List.mergeSort_perm ms _
  · intro p ms k
    have hsub : List.Sublist (ms.filter (fun m => decide (sortKey p m = k))) ms := List.filter_sublist ms
    have hall : ∀ m ∈ ms.filter (fun m => decide (sortKey p m = k)), sortKey p m = k := by
      intro m hm
      have := List.of_mem_filter hm
      simpa using this
    have hpw : (ms.filter (fun m => decide (sortKey p m = k))).Pairwise
        (fun a b => pyTupleLe (sortKey p a) (sortKey p b) = true) := by
      refine List.pairwise_of_forall_mem_list ?_
      intro a ha b hb
      rw [hall a ha, hall b hb]
      exact pyTupleLe_refl k
    have hsub2 : List.Sublist (ms.filter (fun m => decide (sortKey p m = k))) (sortMovies ms p) :=
      List.sublist_mergeSort
        (fun a b c => pyTupleLe_trans (sortKey p a) (sortKey p b) (sortKey p c))
        (fun a b => pyTupleLe_total (sortKey p a) (sortKey p b)) hpw hsub
    have hsub3 : List.Sublist (ms.filter (fun m => decide (sortKey p m = k)))
        ((sortMovies ms p).filter (fun m => decide (sortKey p m = k))) := by
      have := hsub2.filter (fun m => decide (sortKey p m = k))
      rwa [List.filter_filter,
        show (fun m => decide (sortKey p m = k) && decide (sortKey p m = k)) =
          (fun m => decide (sortKey p m = k)) from funext fun m => Bool.and_self _] at this
    have hperm : List.Perm ((sortMovies ms p).filter (fun m => decide (sortKey p m = k)))
        (ms.filter (fun m => decide (sortKey p m = k))) :=
      (List.mergeSort_perm ms _).filter _
    exact (hsub3.eq_of_length hperm.length_eq.symm).symm
  · intro p m h
    simp [titleScore, h]
  · intro p m h
    simp [titleScore, h]
  · intro p m h1 h2
    simp [titleScore, h1, h2]
  · intro m h
    simp [ratingScore, h, truthyStr]
  · intro m s hm hp
    by_cases hs : s = ""
    · simp [ratingScore, hm, truthyStr, hs]
    · simp [ratingScore, hm, truthyStr, hs, hp]
  · intro m s q hm hs hq
    simp [ratingScore, hm, truthyStr, hs, hq]
  · intro m h
    simp [yearScore, h, truthyStr]
  · intro m s hm hp
    by_cases hs : s = ""
    · simp [yearScore, hm, truthyStr, hs]
    · simp [yearScore, hm, truthyStr, hs, hp]
  · intro m s n hm hs hn
    simp [yearScore, hm, truthyStr, hs, hn]
  · rw [sortMovies_eval]
    decide

/-- Witness for `C2_ranking_amended` at concrete inputs. -/
theorem C2_ranking_witness :
    titleScore { title := some "batman" } { title := "The Batman" } =
      (if pyLower ((some "batman" : Option String).getD "") = pyLower "The Batman" then 0
       else if pySubstr (pyLower ((some "batman" : Option String).getD ""))
          (pyLower "The Batman") then 1 else 2) ∧
    ratingScore { title := "x", imdb_rating := some "8.5" } = -(17 / 2 : ℚ) ∧
    yearScore { title := "x", year := some "2021" } = -(2021 : Int) :=
  ⟨C2_ranking_amended.2.2.2.2.2.2.1 { title := some "batman" } { title := "The Batman" }
      (by decide) (by decide),
   C2_ranking_amended.2.2.2.2.2.2.2.2.2.1 { title := "x", imdb_rating := some "8.5" }
      "8.5" (17 / 2 : ℚ) rfl (by decide) (by decide),
   C2_ranking_amended.2.2.2.2.2.2.2.2.2.2.2.2.1 { title := "x", year := some "2021" }
      "2021" 2021 rfl (by decide) (by decide)⟩

end RatKernelEval

/-- Assigning a fresh key appends the binding at the end (Python dict
insertion-order semantics). -/
theorem dictAssign_not_mem (d : List ((String × Option String) × Movie))
    (k : String × Option String) (v : Movie) (h : k ∉ d.map Prod.fst) :
    dictAssign d k v = d ++ [(k, v)] := by
  induction d with
  | nil => rfl
  | cons e d ih =>
    obtain ⟨k', v'⟩ := e
    simp only [List.map_cons, List.mem_cons, not_or] at h
    simp only [dictAssign]
    rw [if_neg (fun he => h.1 he.symm), ih h.2]
    simp

/-- `dictFind` succeeds exactly on present keys. -/
theorem dictFind_isSome (d : List ((String × Option String) × Movie))
    (k : String × Option String) :
    (dictFind d k).isSome = true ↔ k ∈ d.map Prod.fst := by
  induction d with
  | nil => simp [dictFind]
  | cons e d ih =>
    obtain ⟨k', v'⟩ := e
    simp only [dictFind, List.map_cons, List.mem_cons]
    by_cases h : k' = k
    · simp [h]
    · rw [if_neg h, ih]
      exact (or_iff_right (fun hh : k = k' => h hh.symm)).symm

/-- The primary fold of `_merge_movie_results` appends one binding per movie
when the primary keys are distinct and fresh. -/
theorem foldl_dictAssign (P : List Movie) : ∀ (d : List ((String × Option String) × Movie)),
    (∀ m ∈ P, movieKey m ∉ d.map Prod.fst) → (P.map movieKey).Nodup →
    P.foldl (fun d mv => dictAssign d (movieKey mv) mv) d =
      d ++ P.map (fun m => (movieKey m, m)) := by
  induction P with
  | nil => intro d _ _; simp
  | cons m P ih =>
    intro d hfresh hnodup
    simp only [List.foldl_cons]
    rw [dictAssign_not_mem d (movieKey m) m (hfresh m (List.mem_cons_self m P))]
    simp only [List.map_cons, List.nodup_cons] at hnodup
    have hfresh' : ∀ m' ∈ P, movieKey m' ∉ (d ++ [(movieKey m, m)]).map Prod.fst := by
      intro m' hm' hmem
      simp only [List.map_append, List.mem_append, List.map_cons, List.map_nil,
        List.mem_singleton] at hmem
      rcases hmem with hL | hR
      · exact hfresh m' (List.mem_cons_of_mem _ hm') hL
      · exact hnodup.1 (hR ▸ List.mem_map_of_mem movieKey hm')
    rw [ih _ hfresh' hnodup.2]
    simp

/-- Skipping arm of `tmdbNewEntries`. -/
theorem tmdbNewEntries_cons_mem (m : Movie) (S : List Movie)
    (seen : List (String × Option String)) (h : movieKey m ∈ seen) :
    tmdbNewEntries (m :: S) seen = tmdbNewEntries S seen := by
  simp [tmdbNewEntries, h]

/-- Keeping arm of `tmdbNewEntries`. -/
theorem tmdbNewEntries_cons_not_mem (m : Movie) (S : List Movie)
    (seen : List (String × Option String)) (h : movieKey m ∉ seen) :
    tmdbNewEntries (m :: S) seen = m :: tmdbNewEntries S (seen ++ [movieKey m]) := by
  simp [tmdbNewEntries, h]

/-- The secondary fold of `_merge_movie_results` appends exactly the
first-occurrence entries whose keys are not already present. -/
theorem foldl_insertIfAbsent (S : List Movie) :
    ∀ (d : List ((String × Option String) × Movie)),
    S.foldl (fun d mv => if (dictFind d (movieKey mv)).isSome then d
        else dictAssign d (movieKey mv) mv) d =
      d ++ (tmdbNewEntries S (d.map Prod.fst)).map (fun m => (movieKey m, m)) := by
  induction S with
  | nil => intro d; simp [tmdbNewEntries]
  | cons m S ih =>
    intro d
    simp only [List.foldl_cons]
    by_cases h : movieKey m ∈ d.map Prod.fst
    · rw [if_pos ((dictFind_isSome d (movieKey m)).mpr h), ih d,
        tmdbNewEntries_cons_mem m S _ h]
    · rw [if_neg (fun hh => h ((dictFind_isSome d (movieKey m)).mp hh)),
        dictAssign_not_mem d _ m h, ih (d ++ [(movieKey m, m)]),
        tmdbNewEntries_cons_not_mem m S _ h]
      simp

/-- `_merge_movie_results` with distinct primary keys: the primary list in its
own order, followed by the secondary entries under fresh keys in their order. -/
theorem mergeMovieResults_eq (P S : List Movie) (hP : (P.map movieKey).Nodup) :
    mergeMovieResults P S = P ++ tmdbNewEntries S (P.map movieKey) := by
  simp only [mergeMovieResults]
  rw [foldl_dictAssign P [] (by simp) hP, List.nil_append,
    foldl_insertIfAbsent S (P.map fun m => (movieKey m, m))]
  have hkeys : (P.map fun m => (movieKey m, m)).map Prod.fst = P.map movieKey := by
    rw [List.map_map]; rfl
  rw [hkeys, List.map_append]
  congr 1
  · simp [Function.comp_def]
  · simp [Function.comp_def]

/-- Entries the secondary fold appends come from the secondary list. -/
theorem tmdbNewEntries_subset : ∀ (S : List Movie)
    (seen : List (String × Option String)) (m : Movie),
    m ∈ tmdbNewEntries S seen → m ∈ S := by
  intro S
  induction S with
  | nil => intro seen m hm; simp [tmdbNewEntries] at hm
  | cons s S ih =>
    intro seen m hm
    by_cases h : movieKey s ∈ seen
    · rw [tmdbNewEntries_cons_mem s S seen h] at hm
      exact List.mem_cons_of_mem _ (ih _ _ hm)
    · rw [tmdbNewEntries_cons_not_mem s S seen h] at hm
      rcases List.mem_cons.mp hm with rfl | hm'
      · exact List.mem_cons_self _ _
      · exact List.mem_cons_of_mem _ (ih _ _ hm')

/-- Entries the secondary fold appends have keys not already seen. -/
theorem tmdbNewEntries_fresh : ∀ (S : List Movie)
    (seen : List (String × Option String)) (m : Movie),
    m ∈ tmdbNewEntries S seen → movieKey m ∉ seen := by
  intro S
  induction S with
  | nil => intro seen m hm; simp [tmdbNewEntries] at hm
  | cons s S ih =>
    intro seen m hm
    by_cases h : movieKey s ∈ seen
    · rw [tmdbNewEntries_cons_mem s S seen h] at hm
      exact ih _ _ hm
    · rw [tmdbNewEntries_cons_not_mem s S seen h] at hm
      rcases List.mem_cons.mp hm with rfl | hm'
      · exact h
      · intro hseen
        exact ih _ _ hm' (List.mem_append_left _ hseen)

/-- Filtering a distinct-key list by a member's key keeps exactly that member. -/
theorem filter_movieKey_nodup (P : List Movie) (hP : (P.map movieKey).Nodup)
    (q : Movie) (hq : q ∈ P) :
    P.filter (fun m => decide (movieKey m = movieKey q)) = [q] := by
  induction P with
  | nil => cases hq
  | cons a P ih =>
    simp only [List.map_cons, List.nodup_cons] at hP
    rcases List.mem_cons.mp hq with rfl | hq'
    · rw [List.filter_cons_of_pos (by simp)]
      have hnil : P.filter (fun m => decide (movieKey m = movieKey q)) = [] := by
        rw [List.filter_eq_nil_iff]
        intro m hm
        simp only [decide_eq_true_eq]
        intro heq
        exact hP.1 (heq ▸ List.mem_map_of_mem movieKey hm)
      rw [hnil]
    · have hne : ¬ (movieKey a = movieKey q) := by
        intro heq
        exact hP.1 (heq.symm ▸ List.mem_map_of_mem movieKey hq')
      rw [List.filter_cons_of_neg (by simpa using hne)]
      exact ih hP.2 hq'

/-- C1: with distinct primary keys, the merge is the primary list followed by
the first-occurrence fresh-key secondary entries in order; every appended
secondary entry comes from the secondary list and carries a key not already
present; for a key shared between the two lists the merged output holds
exactly the primary entity with all of its field values; the claim's Dune
precedence example behaves as stated. -/
theorem C1_merge_semantics :
    (∀ (P S : List Movie), (P.map movieKey).Nodup →
        mergeMovieResults P S = P ++ tmdbNewEntries S (P.map movieKey)) ∧
    (∀ (S : List Movie) (seen : List (String × Option String)) (m : Movie),
        m ∈ tmdbNewEntries S seen → m ∈ S ∧ movieKey m ∉ seen) ∧
    (∀ (P S : List Movie) (q : Movie), (P.map movieKey).Nodup → q ∈ P →
        (mergeMovieResults P S).filter (fun m => decide (movieKey m = movieKey q)) = [q]) ∧
    mergeMovieResults [{ title := "Dune", year := some "2021", imdb_rating := some "8.0" }]
        [{ title := "Dune", year := some "2021", imdb_rating := some "7.5" }] =
      [{ title := "Dune", year := some "2021", imdb_rating := some "8.0" }] := by
  refine ⟨mergeMovieResults_eq,
    fun S seen m hm => ⟨tmdbNewEntries_subset S seen m hm, tmdbNewEntries_fresh S seen m hm⟩,
    ?_, by decide⟩
  intro P S q hP hq
  rw [mergeMovieResults_eq P S hP, List.filter_append, filter_movieKey_nodup P hP q hq]
  have hnil : (tmdbNewEntries S (P.map movieKey)).filter
      (fun m => decide (movieKey m = movieKey q)) = [] := by
    rw [List.filter_eq_nil_iff]
    intro m hm
    simp only [decide_eq_true_eq]
    intro heq
    exact tmdbNewEntries_fresh S _ m hm (heq ▸ List.mem_map_of_mem movieKey hq)
  rw [hnil]
  simp

/-- Witness for `C1_merge_semantics` at the claim's Dune example. -/
theorem C1_merge_witness :
    (mergeMovieResults [{ title := "Dune", year := some "2021", imdb_rating := some "8.0" }]
        [{ title := "Dune", year := some "2021", imdb_rating := some "7.5" }]).filter
      (fun m => decide (movieKey m =
        movieKey { title := "Dune", year := some "2021", imdb_rating := some "8.0" })) =
      [{ title := "Dune", year := some "2021", imdb_rating := some "8.0" }] :=
  C1_merge_semantics.2.2.1 _ _ _ (by decide) (by decide)

/-- Looking up the key of the head entry of the store. -/
theorem Cache.get_cons_self (k : String) (v : CacheVal) (c : Cache) :
    Cache.get ((k, v) :: c) k = some v := by
  simp [Cache.get]

/-- A cache hit with a non-empty stored result list short-circuits the search:
the cached list is returned, the store is untouched, no upstream round runs. -/
theorem omdbSearch_hit (apiKey : Option String) (cache : Cache)
    (p : MovieSearchParams) (up : OmdbSearchHttp) (ms : List Movie)
    (hk : truthyStr apiKey = true)
    (hc : Cache.get cache (omdbSearchKey p) = some (.movies ms)) (hne : ms ≠ []) :
    omdbSearchMovies apiKey cache p up = .ok (ms, cache, 0) := by
  simp [omdbSearchMovies, hk, hc, CacheVal.truthy, CacheVal.asMovies,
    List.isEmpty_iff, hne]

/-- A search miss fetches, filters the resolved rows, stores under the search
key and returns. -/
theorem omdbSearch_fetch_of_none (apiKey : Option String) (cache : Cache)
    (p : MovieSearchParams) (rows : List (Option Movie))
    (hk : truthyStr apiKey = true)
    (hc : Cache.get cache (omdbSearchKey p) = none) :
    omdbSearchMovies apiKey cache p (.ok rows) =
      .ok ((rows.filterMap id).filter (fun m => matchesFilters m p),
        cache.set (omdbSearchKey p)
          (.movies ((rows.filterMap id).filter (fun m => matchesFilters m p))), 1) := by
  simp [omdbSearchMovies, hk, hc]

/-- A cached empty result list is falsy, so the search refetches as on a miss. -/
theorem omdbSearch_fetch_of_empty (apiKey : Option String) (cache : Cache)
    (p : MovieSearchParams) (rows : List (Option Movie))
    (hk : truthyStr apiKey = true)
    (hc : Cache.get cache (omdbSearchKey p) = some (.movies [])) :
    omdbSearchMovies apiKey cache p (.ok rows) =
      .ok ((rows.filterMap id).filter (fun m => matchesFilters m p),
        cache.set (omdbSearchKey p)
          (.movies ((rows.filterMap id).filter (fun m => matchesFilters m p))), 1) := by
  simp [omdbSearchMovies, hk, hc, CacheVal.truthy]

/-- A details hit returns the cached movie with no upstream round. -/
theorem omdbDetails_hit (apiKey : Option String) (cache : Cache) (mid : String)
    (up : OmdbDetailsHttp) (m : Movie) (hk : truthyStr apiKey = true)
    (hc : Cache.get cache (omdbDetailsKey mid) = some (.movie m)) :
    omdbGetMovieDetails apiKey cache mid up = .ok (m, cache, 0) := by
  simp [omdbGetMovieDetails, hk, hc, CacheVal.truthy, CacheVal.asMovie]

/-- A details miss fetches, stores the normalized movie and returns it. -/
theorem omdbDetails_fetch_of_none (apiKey : Option String) (cache : Cache)
    (mid : String) (m : Movie) (hk : truthyStr apiKey = true)
    (hc : Cache.get cache (omdbDetailsKey mid) = none) :
    omdbGetMovieDetails apiKey cache mid (.ok m) =
      .ok (m, cache.set (omdbDetailsKey mid) (.movie m), 1) := by
  simp [omdbGetMovieDetails, hk, hc]

/-- C4: the claim fails on a cached empty search result: the key maps to an
unexpired entry holding `[]`, yet the call performs the upstream fetch (one
round, not zero) and returns the fetched list, not the cached value — the hit
check is Python truthiness, not presence. -/
theorem C4_counterexample :
    omdbSearchMovies (some "k") [(omdbSearchKey { title := some "x" }, .movies [])]
        { title := some "x" } (.ok [some { title := "Dune" }]) =
      .ok ([{ title := "Dune" }],
        Cache.set [(omdbSearchKey { title := some "x" }, .movies [])]
          (omdbSearchKey { title := some "x" }) (.movies [{ title := "Dune" }]), 1) ∧
    (1 : Nat) ≠ 0 :=
  ⟨omdbSearch_fetch_of_empty (some "k") _ { title := some "x" } _ (by decide)
      (Cache.get_cons_self _ _ _),
   by decide⟩

/-- C4 (amended: a call returns the cached value with no upstream request only
when the unexpired entry is truthy — a non-empty result list, or a `Movie`;
a falsy cached value (the empty list) is treated as a miss; on a miss with a
successful upstream response the call fetches, normalizes, stores under the
derived key and returns). -/
theorem C4_cache_amended :
    (∀ (apiKey : Option String) (cache : Cache) (p : MovieSearchParams)
        (up : OmdbSearchHttp) (ms : List Movie), truthyStr apiKey = true →
        Cache.get cache (omdbSearchKey p) = some (.movies ms) → ms ≠ [] →
        omdbSearchMovies apiKey cache p up = .ok (ms, cache, 0)) ∧
    (∀ (apiKey : Option String) (cache : Cache) (p : MovieSearchParams)
        (rows : List (Option Movie)), truthyStr apiKey = true →
        Cache.get cache (omdbSearchKey p) = none →
        omdbSearchMovies apiKey cache p (.ok rows) =
          .ok ((rows.filterMap id).filter (fun m => matchesFilters m p),
            cache.set (omdbSearchKey p)
              (.movies ((rows.filterMap id).filter (fun m => matchesFilters m p))), 1)) ∧
    (∀ (apiKey : Option String) (cache : Cache) (p : MovieSearchParams)
        (rows : List (Option Movie)), truthyStr apiKey = true →
        Cache.get cache (omdbSearchKey p) = some (.movies []) →
        omdbSearchMovies apiKey cache p (.ok rows) =
          .ok ((rows.filterMap id).filter (fun m => matchesFilters m p),
            cache.set (omdbSearchKey p)
              (.movies ((rows.filterMap id).filter (fun m => matchesFilters m p))), 1)) ∧
    (∀ (apiKey : Option String) (cache : Cache) (mid : String)
        (up : OmdbDetailsHttp) (m : Movie), truthyStr apiKey = true →
        Cache.get cache (omdbDetailsKey mid) = some (.movie m) →
        omdbGetMovieDetails apiKey cache mid up = .ok (m, cache, 0)) ∧
    (∀ (apiKey : Option String) (cache : Cache) (mid : String) (m : Movie),
        truthyStr apiKey = true →
        Cache.get cache (omdbDetailsKey mid) = none →
        omdbGetMovieDetails apiKey cache mid (.ok m) =
          .ok (m, cache.set (omdbDetailsKey mid) (.movie m), 1)) :=
  ⟨omdbSearch_hit, omdbSearch_fetch_of_none, omdbSearch_fetch_of_empty,
   omdbDetails_hit, omdbDetails_fetch_of_none⟩

/-- Witness for `C4_cache_amended` at concrete inputs: a truthy cached search
hit and a details hit both short-circuit even an erroring upstream. -/
theorem C4_cache_witness :
    omdbSearchMovies (some "k")
        [(omdbSearchKey { title := some "x" }, .movies [{ title := "Dune" }])]
        { title := some "x" } (.fail "boom") =
      .ok ([{ title := "Dune" }],
        [(omdbSearchKey { title := some "x" }, .movies [{ title := "Dune" }])], 0) ∧
    omdbGetMovieDetails (some "k")
        [(omdbDetailsKey "tt1", .movie { title := "Dune" })] "tt1" (.raiseExn "boom") =
      .ok ({ title := "Dune" },
        [(omdbDetailsKey "tt1", .movie { title := "Dune" })], 0) :=
  ⟨C4_cache_amended.1 (some "k") _ { title := some "x" } _ _ (by decide)
      (Cache.get_cons_self _ _ _) (by decide),
   C4_cache_amended.2.2.2.1 (some "k") _ "tt1" _ _ (by decide)
      (Cache.get_cons_self _ _ _)⟩

/-- `charListLe` is total. -/
theorem charListLe_total : ∀ (as bs : List Char), charListLe as bs || charListLe bs as := by
  intro as
  induction as with
  | nil => intro bs; simp [charListLe]
  | cons a as ih =>
    intro bs
    cases bs with
    | nil => simp [charListLe]
    | cons b bs =>
      simp only [charListLe]
      by_cases h : a = b
      · simpa [h] using ih bs
      · have h2 : ¬ b = a := fun hh => h hh.symm
        simp only [if_neg h, if_neg h2, Bool.or_eq_true, decide_eq_true_eq]
        exact lt_or_gt_of_ne h
/-- `charListLe` is transitive. -/
theorem charListLe_trans : ∀ (as bs cs : List Char),
    charListLe as bs → charListLe bs cs → charListLe as cs := by
  intro as
  induction as with
  | nil => intro bs cs h1 h2; simp [charListLe]
  | cons a as ih =>
    intro bs cs h1 h2
    cases bs with
    | nil => simp [charListLe] at h1
    | cons b bs =>
      cases cs with
      | nil => simp [charListLe] at h2
      | cons c cs =>
        simp only [charListLe] at h1 h2 ⊢
        by_cases hab : a = b
        · subst hab
          simp only [if_pos rfl] at h1
          by_cases hac : a = c
          · subst hac
            simp only [if_pos rfl] at h2 ⊢
            exact ih bs cs h1 h2
          · simp only [if_neg hac] at h2 ⊢
            exact h2
        · simp only [if_neg hab, decide_eq_true_eq] at h1
          by_cases hbc : b = c
          · subst hbc
            have hac : ¬ a = b := hab
            simp only [if_neg hac, decide_eq_true_eq]
            exact h1
          · simp only [if_neg hbc, decide_eq_true_eq] at h2
            have hac : a < c := lt_trans h1 h2
            simp only [if_neg (ne_of_lt hac), decide_eq_true_eq]
            exact hac
/-- `charListLe` is antisymmetric. -/
theorem charListLe_antisymm : ∀ (as bs : List Char),
    charListLe as bs → charListLe bs as → as = bs := by
  intro as
  induction as with
  | nil =>
    intro bs h1 h2
    cases bs with
    | nil => rfl
    | cons b bs => simp [charListLe] at h2
  | cons a as ih =>
    intro bs h1 h2
    cases bs with
    | nil => simp [charListLe] at h1
    | cons b bs =>
      by_cases hab : a = b
      · subst hab
        simp only [charListLe, if_pos rfl] at h1 h2
        rw [ih bs h1 h2]
      · have hba : ¬ b = a := fun hh => hab hh.symm
        simp only [charListLe, if_neg hab, if_neg hba, decide_eq_true_eq] at h1 h2
        exact absurd h2 (not_lt.mpr (le_of_lt h1))
/-- `sort_keys=True` canonicalization: permuting distinct-name keyword
bindings does not change the sorted member list. -/
theorem sortFields_eq_of_perm (kw1 kw2 : List (String × JScalar))
    (hperm : kw1.Perm kw2) (hnodup : (kw1.map Prod.fst).Nodup) :
    sortFields kw1 = sortFields kw2 := by
  haveI ht : IsTotal (String × JScalar) (fun f g => nameLe f g = true) :=
    ⟨fun a b => Bool.or_eq_true _ _ |>.mp (charListLe_total a.1.toList b.1.toList)⟩
  haveI htr : IsTrans (String × JScalar) (fun f g => nameLe f g = true) :=
    ⟨fun a b c h1 h2 => charListLe_trans _ _ _ h1 h2⟩
  have hs1 : List.Sorted (fun f g : String × JScalar => nameLe f g = true) (sortFields kw1) :=
    List.sorted_insertionSort _ _
  have hs2 : List.Sorted (fun f g : String × JScalar => nameLe f g = true) (sortFields kw2) :=
    List.sorted_insertionSort _ _
  have hp1 : List.Perm (sortFields kw1) kw1 := List.perm_insertionSort _ _
  have hp2 : List.Perm (sortFields kw2) kw2 := List.perm_insertionSort _ _
  have hperm' : List.Perm (sortFields kw1) (sortFields kw2) :=
    hp1.trans (hperm.trans hp2.symm)
  have hn1 : ((sortFields kw1).map Prod.fst).Nodup :=
    ((hp1.map Prod.fst).nodup_iff).mpr hnodup
  have hn2 : ((sortFields kw2).map Prod.fst).Nodup :=
    ((hperm'.map Prod.fst).nodup_iff).mp hn1
  have hlt1 : List.Pairwise
      (fun f g : String × JScalar => nameLe f g = true ∧ f.1 ≠ g.1) (sortFields kw1) :=
    hs1.and (List.pairwise_map.mp hn1)
  have hlt2 : List.Pairwise
      (fun f g : String × JScalar => nameLe f g = true ∧ f.1 ≠ g.1) (sortFields kw2) :=
    hs2.and (List.pairwise_map.mp hn2)
  haveI : IsAntisymm (String × JScalar)
      (fun f g => nameLe f g = true ∧ f.1 ≠ g.1) := by
    constructor
    intro a b h1 h2
    exact absurd (String.ext (charListLe_antisymm _ _ h1.1 h2.1)) h1.2
  exact List.eq_of_perm_of_sorted hperm' hlt1 hlt2

set_option maxRecDepth 10000 in
/-- C5: key derivation is deterministic and order-independent with respect to
field names (the serializer sorts object members by name before hashing); the
search cache key reads only the five filter fields, never `page`/`limit`, so
queries differing only in pagination share a key; adding a `page` binding to
the key material yields a different MD5 key at the claim's concrete example. -/
theorem C5_cache_key_derivation :
    (∀ (args : List JScalar) (kw1 kw2 : List (String × JScalar)),
        kw1.Perm kw2 → (kw1.map Prod.fst).Nodup →
        generateKey args kw1 = generateKey args kw2) ∧
    (∀ p q : MovieSearchParams, p.title = q.title → p.actors = q.actors →
        p.genre = q.genre → p.type = q.type → p.year = q.year →
        omdbSearchKey p = omdbSearchKey q) ∧
    generateKey [.s "search"] [("title", .s "batman"), ("year", .s "2008")] =
      generateKey [.s "search"] [("year", .s "2008"), ("title", .s "batman")] ∧
    generateKey [.s "search"] [("title", .s "batman"), ("year", .s "2008")] ≠
      generateKey [.s "search"]
        [("page", .i 1), ("title", .s "batman"), ("year", .s "2008")] := by
  refine ⟨?_, ?_, ?_, ?_⟩
  · intro args kw1 kw2 hperm hnodup
    unfold generateKey dumpKeyData
    rw [sortFields_eq_of_perm kw1 kw2 hperm hnodup]
  · intro p q h1 h2 h3 h4 h5
    unfold omdbSearchKey
    rw [h1, h2, h3, h4, h5]
  · unfold generateKey dumpKeyData
    rw [sortFields_eq_of_perm [("title", JScalar.s "batman"), ("year", JScalar.s "2008")]
      [("year", JScalar.s "2008"), ("title", JScalar.s "batman")] (by decide) (by decide)]
  · decide

/-- Witness for `C5_cache_key_derivation` at concrete inputs. -/
theorem C5_cache_key_witness :
    omdbSearchKey { title := some "batman", year := some "2008", page := 1, limit := 10 } =
        omdbSearchKey { title := some "batman", year := some "2008", page := 3, limit := 50 } ∧
      generateKey [.s "k"] [("a", .s "1"), ("b", .s "2")] =
        generateKey [.s "k"] [("b", .s "2"), ("a", .s "1")] :=
  ⟨C5_cache_key_derivation.2.1 _ _ rfl rfl rfl rfl rfl,
   C5_cache_key_derivation.1 [.s "k"] _ _ (by decide) (by decide)⟩

end MovieSearch
